import Mathlib

/-!
Verification of the finsight dashboard client core: the live-data
synchronization layer (polling hooks), the tiered access gate, the
watchlist store, and the enrollment (beta signup) flow.

Each definition is a shallow embedding of a function or state cell of the
JavaScript source. Stateful React hooks are embedded as explicit state
records together with step functions from (state, fetch outcome) to state;
a fetch outcome is a constructor of FetchResult (success with payload, or
failure, matching fetchJSON which throws on non-2xx).
-/

namespace FinSight

/-- Outcome of one fetchJSON call: success carries the decoded payload,
err stands for a thrown FetchError (transport failure or non-2xx). -/
inductive FetchResult (α : Type) where
  | ok (data : α)
  | err
deriving DecidableEq, Repr

/-- ASCII uppercasing of one character, as JavaScript toUpperCase acts on
the ASCII inputs this client handles. -/
def charUpper (c : Char) : Char :=
  if 97 ≤ c.toNat ∧ c.toNat ≤ 122 then Char.ofNat (c.toNat - 32) else c

/-- JavaScript String.prototype.toUpperCase, embedded over the character
list. -/
def jsToUpper (s : String) : String := String.mk (s.data.map charUpper)

/-- JavaScript String.prototype.trim: strip whitespace from both ends,
embedded over the character list. -/
def jsTrim (s : String) : String :=
  String.mk
    (((s.data.dropWhile Char.isWhitespace).reverse.dropWhile
        Char.isWhitespace).reverse)

/-- A signal entry as used by the view logic: identity is id, and the
signal field carries the category (BUY, SELL, AVOID, WATCH) that the
filter tabs match on. Remaining payload fields are not consulted by the
behavior under verification. -/
structure Signal where
  id : Nat
  signal : String
deriving DecidableEq, Repr

/-! The useSignals hook: the Feed Synchronizer built on the Poller pattern. -/

/-- State cells of the useSignals hook, with the useState initializers of
the source as the initial state (see initialSignalsState). Timestamps are
abstracted as Nat. -/
structure SignalsState where
  signals : List Signal
  loading : Bool
  lastFetched : Option Nat
  newId : Option Nat
deriving DecidableEq, Repr

/-- Initial state of useSignals: signals [], loading true,
lastFetched null, newId null. -/
def initialSignalsState : SignalsState :=
  { signals := [], loading := true, lastFetched := none, newId := none }

/-- New-item detection of useSignals.load: build the set of ids of the
previous list, then find the first entry of the fetched list whose id is
not in that set, and give its id. -/
def firstNewId (prev data : List Signal) : Option Nat :=
  (data.find? (fun s => !((prev.map (fun x => x.id)).contains s.id))).map
    (fun s => s.id)

/-- One settled attempt of useSignals.load. On success the fetched data
replaces the signals wholesale, newId is set when a new id is detected
(and kept otherwise, since setNewId is only called when a new entry is
found), and lastFetched is set to the current time. On failure the error
is only logged. In both cases loading is cleared in the finally block. -/
def useSignalsLoad (st : SignalsState) (res : FetchResult (List Signal))
    (now : Nat) : SignalsState :=
  match res with
  | .ok data =>
      { signals := data
        loading := false
        lastFetched := some now
        newId :=
          match firstNewId st.signals data with
          | some i => some i
          | none => st.newId }
  | .err => { st with loading := false }

/-- The first-absent-id scan stated over bare id sequences, following the
specification text: scan the new id sequence in its given order for the
first id not contained in the previous ids. -/
def firstAbsentId (prevIds ids : List Nat) : Option Nat :=
  ids.find? (fun i => !(prevIds.contains i))

/-! The useMarkets, useChartData and useWatchlist hooks: further Poller instances. -/

/-- One market instrument as delivered by /api/markets/overview: price and
change_pct may be absent in the payload. Numeric values are abstracted as
integers; no verified behavior computes with them. -/
structure MarketEntry where
  price : Option Int
  change_pct : Option Int
deriving DecidableEq, Repr

/-- Payload of /api/markets/overview: three mappings from instrument name
to market entry, embedded as association lists. -/
structure MarketsData where
  indices : List (String × MarketEntry)
  commodities : List (String × MarketEntry)
  crypto : List (String × MarketEntry)
deriving DecidableEq, Repr

/-- State cells of the useMarkets hook. -/
structure MarketsState where
  markets : MarketsData
  loading : Bool
deriving DecidableEq, Repr

/-- One settled attempt of useMarkets.load: replace on success, log and
keep on failure, clear loading in the finally block. -/
def useMarketsLoad (st : MarketsState) (res : FetchResult MarketsData) :
    MarketsState :=
  match res with
  | .ok data => { markets := data, loading := false }
  | .err => { st with loading := false }

/-- One aggregate point of /api/chart-data. -/
structure ChartPoint where
  time : Nat
  buy : Nat
  sell : Nat
  avoid : Nat
  watch : Nat
deriving DecidableEq, Repr

/-- State cells of the useChartData hook. -/
structure ChartState where
  chartData : List ChartPoint
  loading : Bool
deriving DecidableEq, Repr

/-- One settled attempt of useChartData.load. -/
def useChartDataLoad (st : ChartState) (res : FetchResult (List ChartPoint)) :
    ChartState :=
  match res with
  | .ok data => { chartData := data, loading := false }
  | .err => { st with loading := false }

/-- A watchlist item: identity is the ticker. Price fields are not
consulted by the verified behavior. -/
structure WatchItem where
  ticker : String
  name : String
deriving DecidableEq, Repr

/-- State cells of the useWatchlist hook. -/
structure WatchlistState where
  watchlist : List WatchItem
  loading : Bool
deriving DecidableEq, Repr

/-- One settled attempt of useWatchlist.load: replace the held list on
success (never merges), log and keep on failure, clear loading in the
finally block. -/
def wlLoad (st : WatchlistState) (res : FetchResult (List WatchItem)) :
    WatchlistState :=
  match res with
  | .ok data => { watchlist := data, loading := false }
  | .err => { st with loading := false }

/-- useWatchlist.addTicker: issue the POST; if it succeeds, reload the
whole list via load (whose own failure is swallowed by its catch); if the
POST fails, only log, leaving the state exactly as it was. The POST
response body is ignored. -/
def addTicker (st : WatchlistState) (postRes : FetchResult Unit)
    (reloadRes : FetchResult (List WatchItem)) : WatchlistState :=
  match postRes with
  | .ok _ => wlLoad st reloadRes
  | .err => st

/-- useWatchlist.removeTicker: issue the DELETE keyed by ticker; if it
succeeds, reload the whole list via load; if it fails, only log. -/
def removeTicker (st : WatchlistState) (delRes : FetchResult Unit)
    (reloadRes : FetchResult (List WatchItem)) : WatchlistState :=
  match delRes with
  | .ok _ => wlLoad st reloadRes
  | .err => st

/-! View logic of the main component: filter tabs and the access gate. -/

/-- The currently filtered signals view of the main component:
filter is ALL gives the whole list, otherwise only the entries whose
signal category equals the filter tab. -/
def filtered (filter : String) (signals : List Signal) : List Signal :=
  if filter = "ALL" then signals
  else signals.filter (fun s => s.signal == filter)

/-- JavaScript Array.indexOf semantics for signal entries: the zero-based
index of the first occurrence in the list, or -1 when absent. -/
def jsIndexOf (l : List Signal) (s : Signal) : Int :=
  match l with
  | [] => -1
  | x :: xs =>
      if x = s then 0
      else
        let r := jsIndexOf xs s
        if r = -1 then -1 else r + 1

/-- isLocked of the main component: an entry is locked exactly when the
plan is FREE and the entry sits at index 3 or later of the full signals
list (signals.indexOf, not the position within the filtered view). -/
def isLocked (plan : String) (signals : List Signal) (s : Signal) : Bool :=
  decide (plan = "FREE") && decide ((3 : Int) ≤ jsIndexOf signals s)

/-- The lock flags the signals tab actually renders: the filtered view
mapped through isLocked, in order (a true at position p means the card at
filtered position p renders as the blurred upgrade placeholder). -/
def renderedLocked (plan filter : String) (signals : List Signal) :
    List Bool :=
  (FinSight.filtered filter signals).map (isLocked plan signals)

/-- The lock decision as worded by the specification: a function of the
tier and the position in the currently filtered view alone. Kept separate
from isLocked to compare the two. -/
def lockedSpecAt (plan : String) (p : Nat) : Bool :=
  decide (plan = "FREE") && decide (3 ≤ p)

/-- handleAddTicker of the main component: trim and uppercase the input;
when the result is empty, return without issuing any request; otherwise
call addTicker with the normalized ticker as both ticker and name. The
value returned is the POST body issued, none when no request is made. -/
def handleAddTicker (tickerInput : String) : Option WatchItem :=
  let t := jsToUpper (jsTrim tickerInput)
  if t = "" then none else some { ticker := t, name := t }

/-! Enrollment flow: the beta signup state machine of the main component. -/

/-- The state cells of the main component that the enrollment flow reads
and writes. Steps are the source's strings: pick (SELECT), form (DETAILS),
verify (VERIFY), done (DONE). plan is the process-wide active tier. -/
structure BetaState where
  plan : String
  showUpgrade : Bool
  betaStep : String
  betaChoice : String
  betaName : String
  betaEmail : String
  betaOtp : String
  betaSubmitting : Bool
  betaError : String
deriving DecidableEq, Repr

/-- JavaScript d.detail || fallback on an optional error body: the detail
string when present and non-empty (non-falsy), the fallback otherwise. -/
def jsOrElse (d : Option String) (fallback : String) : String :=
  match d with
  | some s => if s = "" then fallback else s
  | none => fallback

/-- Body of POST /api/beta-signup. -/
structure SignupRequest where
  name : String
  email : String
  plan : String
deriving DecidableEq, Repr

/-- Outcome of the beta-signup request: 200 (body unused), non-2xx with
an optional error body detail, or a thrown network error. -/
inductive SignupResponse where
  | ok
  | httpErr (detail : Option String)
  | netErr
deriving DecidableEq, Repr

/-- Outcome of the beta-verify request: 200 with the plan of the response
body, non-2xx with an optional detail, or a thrown network error. -/
inductive VerifyResponse where
  | ok (plan : String)
  | httpErr (detail : Option String)
  | netErr
deriving DecidableEq, Repr

/-- handleBetaSubmit: with an empty (trimmed) name or email, set the
validation message and return before any request. Otherwise clear the
error, issue the signup request (second component: the body sent); on
non-2xx set the error from the body's detail or the generic fallback; on
a thrown error set the generic fallback; on 200 clear the entered code
and move to the verify step. betaSubmitting is cleared in the finally
block of every request path. -/
def handleBetaSubmit (st : BetaState) (resp : SignupResponse) :
    BetaState × Option SignupRequest :=
  if jsTrim st.betaName = "" || jsTrim st.betaEmail = "" then
    ({ st with betaError := "Please enter your name and email." }, none)
  else
    let req : SignupRequest :=
      { name := jsTrim st.betaName, email := jsTrim st.betaEmail
        plan := st.betaChoice }
    match resp with
    | .ok =>
        ({ st with betaError := "", betaOtp := "", betaStep := "verify"
                   betaSubmitting := false }, some req)
    | .httpErr d =>
        ({ st with
            betaError := jsOrElse d "Something went wrong. Please try again."
            betaSubmitting := false }, some req)
    | .netErr =>
        ({ st with
            betaError := "Something went wrong. Please try again."
            betaSubmitting := false }, some req)

/-- handleBetaVerify: with an empty (trimmed) code, set the validation
message and return before any request. Otherwise clear the error and
issue the verify request; on 200 set the process-wide plan to the plan of
the response body and move to done; on non-2xx set the error from the
body's detail or the fallback; on a thrown error set the generic
fallback. betaSubmitting is cleared in the finally block. -/
def handleBetaVerify (st : BetaState) (resp : VerifyResponse) : BetaState :=
  if jsTrim st.betaOtp = "" then
    { st with betaError := "Please enter the verification code." }
  else
    match resp with
    | .ok p =>
        { st with betaError := "", plan := p, betaStep := "done"
                  betaSubmitting := false }
    | .httpErr d =>
        { st with betaError := jsOrElse d "Invalid code. Please try again."
                  betaSubmitting := false }
    | .netErr =>
        { st with betaError := "Something went wrong. Please try again."
                  betaSubmitting := false }

/-- openUpgrade: reset the enrollment session and show the dialog. The
source sets betaStep to pick and clears betaName, betaEmail, betaOtp and
betaError; it does not touch betaChoice (nor plan or betaSubmitting). -/
def openUpgrade (st : BetaState) : BetaState :=
  { st with betaStep := "pick", betaName := "", betaEmail := ""
            betaOtp := "", betaError := "", showUpgrade := true }

/-! Teardown model of the useSignals effect.

The effect starts a load, registers the interval timer, and its cleanup
calls clearInterval. An attempt in flight when the cleanup runs has no
cancellation guard in the source: when its promise settles, the load
continuation runs and applies the result through the state setters. The
world below makes that explicit: timerFire dispatches an attempt only
while the timer is registered, teardown unregisters the timer, and settle
applies useSignalsLoad for a dispatched attempt whether or not teardown
has happened, exactly as the source's continuation does. -/

/-- The hook state together with the effect's runtime bookkeeping:
whether the interval timer is still registered, how many dispatched
attempts have not yet settled, and whether the cleanup has run. -/
structure PollerWorld where
  st : SignalsState
  timerActive : Bool
  inFlight : Nat
  tornDown : Bool
deriving DecidableEq, Repr

/-- Events of the useSignals effect. -/
inductive PollerEvent where
  | timerFire
  | settle (res : FetchResult (List Signal)) (now : Nat)
  | teardown
deriving DecidableEq, Repr

/-- One event of the effect. timerFire dispatches a load only while the
interval is registered; settle runs the continuation of a dispatched
attempt, which applies useSignalsLoad unconditionally (the source has no
in-flight guard); teardown is the effect cleanup, which only calls
clearInterval. -/
def pollerStep (w : PollerWorld) : PollerEvent → PollerWorld
  | .timerFire =>
      if w.timerActive then { w with inFlight := w.inFlight + 1 } else w
  | .settle res now =>
      if 0 < w.inFlight then
        { w with inFlight := w.inFlight - 1, st := useSignalsLoad w.st res now }
      else w
  | .teardown => { w with timerActive := false, tornDown := true }

end FinSight

namespace FinSight

theorem jsIndexOf_of_getElem? (sigs : List Signal) (p : Nat) (item : Signal)
    (hnd : sigs.Nodup) (hp : sigs[p]? = some item) :
    jsIndexOf sigs item = (p : Int) := by
  induction sigs generalizing p with
  | nil => simp at hp
  | cons x xs ih =>
    rcases p with _ | n
    · simp at hp
      subst hp
      simp [jsIndexOf]
    · have hp' : xs[n]? = some item := by simpa using hp
      have hnd' : xs.Nodup := (List.nodup_cons.mp hnd).2
      have hxmem : x ∉ xs := (List.nodup_cons.mp hnd).1
      have hne : x ≠ item := fun he => hxmem (he ▸ List.getElem?_mem hp')
      have hr := ih n hnd' hp'
      have hcast : (n : Int) ≠ -1 := by omega
      simp [jsIndexOf, hne, hr, hcast]

theorem firstNewId_eq_firstAbsentId (prev data : List Signal) :
    firstNewId prev data =
      firstAbsentId (prev.map (fun x => x.id)) (data.map (fun x => x.id)) := by
  induction data with
  | nil => rfl
  | cons s rest ih =>
    simp only [firstNewId, firstAbsentId, List.map_cons, List.find?_cons] at ih ⊢
    cases h : (prev.map (fun x => x.id)).contains s.id
    · simp only [h, Bool.not_false]
      rfl
    · simp only [h, Bool.not_true]
      exact ih

/-- C1 (amended). An entry rendered at position p of the filtered signals
view is obscured exactly when the tier is FREE and the entry sits at
zero-based index 3 or later of the FULL unfiltered signals list; for any
tier other than FREE no position is obscured; and when the filter is ALL
(and entries are distinct) the unfiltered index coincides with the
filtered position, so the lock agrees with the position-in-view rule. -/
theorem C1_access_gate (plan filter : String) (sigs : List Signal) (p : Nat)
    (item : Signal) (hitem : (FinSight.filtered filter sigs)[p]? = some item) :
    ((renderedLocked plan filter sigs)[p]? = some true ↔
        plan = "FREE" ∧ (3 : Int) ≤ jsIndexOf sigs item)
    ∧ (plan ≠ "FREE" → (renderedLocked plan filter sigs)[p]? = some false)
    ∧ (filter = "ALL" → sigs.Nodup →
        (renderedLocked plan filter sigs)[p]? = some (lockedSpecAt plan p)) := by
  have hmap : (renderedLocked plan filter sigs)[p]? =
      some (isLocked plan sigs item) := by
    rw [renderedLocked, List.getElem?_map, hitem, Option.map_some']
  refine ⟨?_, ?_, ?_⟩
  · rw [hmap]
    simp [isLocked]
  · intro hplan
    rw [hmap]
    simp [isLocked, hplan]
  · intro hall hnd
    subst hall
    have hsig : sigs[p]? = some item := by
      simpa [FinSight.filtered] using hitem
    have hidx := jsIndexOf_of_getElem? sigs p item hnd hsig
    rw [hmap]
    simp only [isLocked, lockedSpecAt, hidx, Option.some.injEq]
    congr 1
    rw [decide_eq_decide]
    omega

/-- C1 (counterexample). With tier FREE, four signals of which only the
last is a BUY, and the BUY filter tab active, the single entry of the
filtered view, at filtered position 0, renders locked, while the lock
rule of the claim (a function of the filtered position) says position 0
is visible. -/
theorem C1_access_gate_counterexample :
    renderedLocked "FREE" "BUY"
      [⟨1, "SELL"⟩, ⟨2, "SELL"⟩, ⟨3, "SELL"⟩, ⟨4, "BUY"⟩] = [true]
    ∧ lockedSpecAt "FREE" 0 = false := by decide

/-- C1 (witness). The amended theorem applied at the counterexample
input and, for the no-position-obscured half, at tier PRO. -/
theorem C1_access_gate_witness :
    ((renderedLocked "FREE" "BUY"
        [⟨1, "SELL"⟩, ⟨2, "SELL"⟩, ⟨3, "SELL"⟩, ⟨4, "BUY"⟩])[0]? = some true ↔
      "FREE" = "FREE" ∧ (3 : Int) ≤
        jsIndexOf [⟨1, "SELL"⟩, ⟨2, "SELL"⟩, ⟨3, "SELL"⟩, ⟨4, "BUY"⟩]
          ⟨4, "BUY"⟩)
    ∧ (renderedLocked "PRO" "BUY"
        [⟨1, "SELL"⟩, ⟨2, "SELL"⟩, ⟨3, "SELL"⟩, ⟨4, "BUY"⟩])[0]? = some false :=
  ⟨(C1_access_gate "FREE" "BUY"
      [⟨1, "SELL"⟩, ⟨2, "SELL"⟩, ⟨3, "SELL"⟩, ⟨4, "BUY"⟩] 0 ⟨4, "BUY"⟩
      (by decide)).1,
   (C1_access_gate "PRO" "BUY"
      [⟨1, "SELL"⟩, ⟨2, "SELL"⟩, ⟨3, "SELL"⟩, ⟨4, "BUY"⟩] 0 ⟨4, "BUY"⟩
      (by decide)).2.1 (by decide)⟩

/-- C2. The id flagged by a successful refresh is the first id of the
fetched sequence, scanned in its given order, that is absent from the ids
of the previously held sequence; previous ids 1,2,3 with new sequence
4,2,3,1 flag 4, and with new sequence 1,2,3 flag nothing; and the newId
cell is set exactly when such an id exists, kept otherwise. -/
theorem C2_feed_synchronizer :
    (∀ prev data : List Signal,
        firstNewId prev data =
          firstAbsentId (prev.map (fun x => x.id)) (data.map (fun x => x.id)))
    ∧ firstNewId [⟨1, "BUY"⟩, ⟨2, "SELL"⟩, ⟨3, "WATCH"⟩]
        [⟨4, "BUY"⟩, ⟨2, "SELL"⟩, ⟨3, "WATCH"⟩, ⟨1, "BUY"⟩] = some 4
    ∧ firstNewId [⟨1, "BUY"⟩, ⟨2, "SELL"⟩, ⟨3, "WATCH"⟩]
        [⟨1, "BUY"⟩, ⟨2, "SELL"⟩, ⟨3, "WATCH"⟩] = none
    ∧ (∀ st data now, (useSignalsLoad st (.ok data) now).newId =
        match firstNewId st.signals data with
        | some i => some i
        | none => st.newId) :=
  ⟨firstNewId_eq_firstAbsentId, by decide, by decide, fun st data now => rfl⟩

/-- C3. For every poller instance of the client (signals, markets, chart
data, watchlist), a failed fetch attempt leaves the whole held state
unchanged apart from clearing the loading flag: the previously held
successful result is never cleared or replaced. -/
theorem C3_stale_on_error :
    (∀ st now, useSignalsLoad st .err now = { st with loading := false })
    ∧ (∀ st, useMarketsLoad st .err = { st with loading := false })
    ∧ (∀ st, useChartDataLoad st .err = { st with loading := false })
    ∧ (∀ st, wlLoad st .err = { st with loading := false }) :=
  ⟨fun _ _ => rfl, fun _ => rfl, fun _ => rfl, fun _ => rfl⟩

/-- C4. In the VERIFY step with a non-empty code, a successful verify
response moves the step to done and sets the process-wide plan to the
plan of the response body (whatever it is, independent of the chosen
tier); a failed response keeps the step at verify with the error message
taken from the response detail or the generic fallback. -/
theorem C4_verify_step (st : BetaState) (hstep : st.betaStep = "verify")
    (hotp : jsTrim st.betaOtp ≠ "") :
    (∀ p, (handleBetaVerify st (.ok p)).betaStep = "done"
        ∧ (handleBetaVerify st (.ok p)).plan = p)
    ∧ (∀ d, (handleBetaVerify st (.httpErr d)).betaStep = "verify"
        ∧ (handleBetaVerify st (.httpErr d)).betaError =
            jsOrElse d "Invalid code. Please try again.")
    ∧ (handleBetaVerify st .netErr).betaStep = "verify"
    ∧ (handleBetaVerify st .netErr).betaError =
        "Something went wrong. Please try again." := by
  simp [handleBetaVerify, hotp, hstep]

/-- C4 (witness). The verify theorem applied at a concrete session in the
verify step, with a server response carrying plan PRO although ELITE was
chosen. -/
theorem C4_verify_step_witness :
    (handleBetaVerify
        { plan := "FREE", showUpgrade := true, betaStep := "verify",
          betaChoice := "ELITE", betaName := "Ada", betaEmail := "a@b.co",
          betaOtp := "123456", betaSubmitting := true, betaError := "" }
        (.ok "PRO")).betaStep = "done"
    ∧ (handleBetaVerify
        { plan := "FREE", showUpgrade := true, betaStep := "verify",
          betaChoice := "ELITE", betaName := "Ada", betaEmail := "a@b.co",
          betaOtp := "123456", betaSubmitting := true, betaError := "" }
        (.ok "PRO")).plan = "PRO" :=
  (C4_verify_step
    { plan := "FREE", showUpgrade := true, betaStep := "verify",
      betaChoice := "ELITE", betaName := "Ada", betaEmail := "a@b.co",
      betaOtp := "123456", betaSubmitting := true, betaError := "" }
    (by decide) (by decide)).1 "PRO"

/-- C5. In the DETAILS step: an empty (trimmed) name or email sets the
validation message, keeps the step, and issues no request; with valid
details, a failed signup keeps the step at form with the error from the
response detail or the generic fallback and submitting cleared, and a
successful signup clears the entered code and moves to verify. -/
theorem C5_details_step (st : BetaState) (hstep : st.betaStep = "form") :
    ((jsTrim st.betaName = "" ∨ jsTrim st.betaEmail = "") → ∀ r,
        (handleBetaSubmit st r).2 = none
        ∧ (handleBetaSubmit st r).1.betaStep = "form"
        ∧ (handleBetaSubmit st r).1.betaError =
            "Please enter your name and email.")
    ∧ (jsTrim st.betaName ≠ "" → jsTrim st.betaEmail ≠ "" →
        (∀ d, (handleBetaSubmit st (.httpErr d)).1.betaStep = "form"
            ∧ (handleBetaSubmit st (.httpErr d)).1.betaError =
                jsOrElse d "Something went wrong. Please try again."
            ∧ (handleBetaSubmit st (.httpErr d)).1.betaSubmitting = false)
        ∧ ((handleBetaSubmit st .netErr).1.betaStep = "form"
            ∧ (handleBetaSubmit st .netErr).1.betaError =
                "Something went wrong. Please try again."
            ∧ (handleBetaSubmit st .netErr).1.betaSubmitting = false)
        ∧ ((handleBetaSubmit st .ok).1.betaStep = "verify"
            ∧ (handleBetaSubmit st .ok).1.betaOtp = ""
            ∧ (handleBetaSubmit st .ok).1.betaError = "")) := by
  constructor
  · intro hval r
    have hcond : (jsTrim st.betaName = "" || jsTrim st.betaEmail = "") = true := by
      rcases hval with h | h <;> simp [h]
    simp [handleBetaSubmit, hcond, hstep]
  · intro hname hemail
    have hcond : (jsTrim st.betaName = "" || jsTrim st.betaEmail = "") = false := by
      simp [hname, hemail]
    refine ⟨fun d => ?_, ?_, ?_⟩ <;> simp [handleBetaSubmit, hcond, hstep]

/-- C5 (witness). The details theorem applied at a concrete session: the
empty-email case issues no request, and with valid details a successful
signup moves to verify with the code cleared. -/
theorem C5_details_step_witness :
    (handleBetaSubmit
        { plan := "FREE", showUpgrade := true, betaStep := "form",
          betaChoice := "ELITE", betaName := "Ada", betaEmail := "  ",
          betaOtp := "999999", betaSubmitting := false, betaError := "" }
        .ok).2 = none
    ∧ (handleBetaSubmit
        { plan := "FREE", showUpgrade := true, betaStep := "form",
          betaChoice := "ELITE", betaName := "Ada", betaEmail := "a@b.co",
          betaOtp := "999999", betaSubmitting := false, betaError := "" }
        .ok).1.betaStep = "verify"
    ∧ (handleBetaSubmit
        { plan := "FREE", showUpgrade := true, betaStep := "form",
          betaChoice := "ELITE", betaName := "Ada", betaEmail := "a@b.co",
          betaOtp := "999999", betaSubmitting := false, betaError := "" }
        .ok).1.betaOtp = "" :=
  ⟨((C5_details_step
      { plan := "FREE", showUpgrade := true, betaStep := "form",
        betaChoice := "ELITE", betaName := "Ada", betaEmail := "  ",
        betaOtp := "999999", betaSubmitting := false, betaError := "" }
      (by decide)).1 (Or.inr (by decide)) .ok).1,
   ((C5_details_step
      { plan := "FREE", showUpgrade := true, betaStep := "form",
        betaChoice := "ELITE", betaName := "Ada", betaEmail := "a@b.co",
        betaOtp := "999999", betaSubmitting := false, betaError := "" }
      (by decide)).2 (by decide) (by decide)).2.2.1,
   ((C5_details_step
      { plan := "FREE", showUpgrade := true, betaStep := "form",
        betaChoice := "ELITE", betaName := "Ada", betaEmail := "a@b.co",
        betaOtp := "999999", betaSubmitting := false, betaError := "" }
      (by decide)).2 (by decide) (by decide)).2.2.2.1⟩

/-- C6 (amended). Reopening the enrollment dialog restores the step to
pick (SELECT) and clears the contact name, contact email, code and error
(and shows the dialog); the chosen tier and the active plan are left
unchanged, not cleared. -/
theorem C6_reset_flow : ∀ st : BetaState,
    (openUpgrade st).betaStep = "pick"
    ∧ (openUpgrade st).betaName = ""
    ∧ (openUpgrade st).betaEmail = ""
    ∧ (openUpgrade st).betaOtp = ""
    ∧ (openUpgrade st).betaError = ""
    ∧ (openUpgrade st).showUpgrade = true
    ∧ (openUpgrade st).betaChoice = st.betaChoice
    ∧ (openUpgrade st).plan = st.plan :=
  fun _ => ⟨rfl, rfl, rfl, rfl, rfl, rfl, rfl, rfl⟩

/-- C6 (counterexample). A session whose chosen tier is ELITE keeps that
chosen tier across the reset: it is neither emptied nor restored to its
initial value PRO, so not every captured field is cleared. -/
theorem C6_reset_flow_counterexample :
    (openUpgrade
        { plan := "FREE", showUpgrade := false, betaStep := "done",
          betaChoice := "ELITE", betaName := "Ada", betaEmail := "a@b.co",
          betaOtp := "123456", betaSubmitting := false,
          betaError := "oops" }).betaChoice = "ELITE"
    ∧ "ELITE" ≠ "" ∧ "ELITE" ≠ "PRO" := by decide

/-- C7. The add-ticker handler trims and uppercases its input before any
request: in general the issued POST body carries the normalized ticker as
both ticker and name, bhp.ax normalizes to BHP.AX, and an input that is
empty after normalization issues no request at all. -/
theorem C7_add_normalization :
    (∀ s, handleAddTicker s =
        if jsToUpper (jsTrim s) = "" then none
        else some { ticker := jsToUpper (jsTrim s), name := jsToUpper (jsTrim s) })
    ∧ handleAddTicker "bhp.ax" = some { ticker := "BHP.AX", name := "BHP.AX" }
    ∧ handleAddTicker "   " = none :=
  ⟨fun _ => rfl, by decide, by decide⟩

/-- C8. A watchlist mutation whose request succeeds hands the state to a
full reload: the held list becomes exactly the reload result on a
successful reload and stays exactly the previous list when the reload
itself fails; a mutation whose request fails leaves the whole state
untouched. This holds for add and for remove alike. -/
theorem C8_mutation_reload :
    ∀ (st : WatchlistState) (data : List WatchItem)
      (r : FetchResult (List WatchItem)),
    addTicker st (.ok ()) r = wlLoad st r
    ∧ removeTicker st (.ok ()) r = wlLoad st r
    ∧ (addTicker st (.ok ()) (.ok data)).watchlist = data
    ∧ (removeTicker st (.ok ()) (.ok data)).watchlist = data
    ∧ (addTicker st (.ok ()) .err).watchlist = st.watchlist
    ∧ (removeTicker st (.ok ()) .err).watchlist = st.watchlist
    ∧ addTicker st .err r = st
    ∧ removeTicker st .err r = st :=
  fun _ _ _ => ⟨rfl, rfl, rfl, rfl, rfl, rfl, rfl, rfl⟩

/-- C9 (code behavior at the failing input). With one attempt in flight,
teardown marks the timer cleared, and a timer event afterwards dispatches
nothing; but when the in-flight attempt settles after teardown, its
result is still applied to the held state, which therefore changes after
teardown. -/
theorem C9_teardown_late_result :
    (pollerStep
        { st := initialSignalsState, timerActive := true, inFlight := 1,
          tornDown := false } .teardown).tornDown = true
    ∧ pollerStep
        (pollerStep
          { st := initialSignalsState, timerActive := true, inFlight := 1,
            tornDown := false } .teardown) .timerFire =
        pollerStep
          { st := initialSignalsState, timerActive := true, inFlight := 1,
            tornDown := false } .teardown
    ∧ (pollerStep
        (pollerStep
          { st := initialSignalsState, timerActive := true, inFlight := 1,
            tornDown := false } .teardown)
        (.settle (.ok [⟨9, "BUY"⟩]) 5)).st.signals = [⟨9, "BUY"⟩]
    ∧ (pollerStep
        { st := initialSignalsState, timerActive := true, inFlight := 1,
          tornDown := false } .teardown).st.signals = [] := by decide

/-- C10. On the very first successful fetch, when the previously held
list is empty, the first entry of any non-empty fetched sequence is
flagged as new: the detection function flags its id, and the hook state
after loading from the initial state carries that id in newId. -/
theorem C10_initial_load_flags_first :
    ∀ (s : Signal) (rest : List Signal) (now : Nat),
    firstNewId [] (s :: rest) = some s.id
    ∧ (useSignalsLoad initialSignalsState (.ok (s :: rest)) now).newId =
        some s.id :=
  fun _ _ _ => ⟨rfl, rfl⟩

end FinSight
